import Mathlib

/-!
Verification of the image request adapter `generateOrEditImage` from
`src/services/geminiService.ts`.

The adapter receives a prompt and an optional source image, branches on the
presence of that image, issues one of two remote operations
(`ai.models.generateContent` for editing, `ai.models.generateImages` for
generation), extracts the image payload from the provider's response shape,
and normalizes every thrown value at a single boundary catch.

The embedding models the provider client as an explicit `Transport` record
(the two remote operations, each either returning a response or throwing),
JavaScript thrown values as `JsError` (an `Error` with a message, or any
non-`Error` value), and optional fields / optional chaining with `Option`.
-/

namespace GeminiService

/-- The optional `image` parameter `{ data: string; mimeType: string }`
supplied for editing. -/
structure SourceImage where
  data : String
  mimeType : String
deriving Repr, DecidableEq

/-- Inline image data carried by a response part (the SDK's `Blob`); both
fields are optional strings at the SDK level. -/
structure InlineData where
  data : Option String
  mimeType : Option String
deriving Repr, DecidableEq

/-- One part of an edit-response candidate's content; the code inspects only
the `inlineData` field. -/
structure Part where
  inlineData : Option InlineData
deriving Repr, DecidableEq

/-- The `content` object of a candidate, with an optional parts list. -/
structure Content where
  parts : Option (List Part)
deriving Repr, DecidableEq

/-- One candidate of an edit response, with optional content. -/
structure Candidate where
  content : Option Content
deriving Repr, DecidableEq

/-- Response shape of `ai.models.generateContent` (edit path). -/
structure EditResponse where
  candidates : Option (List Candidate)
deriving Repr, DecidableEq

/-- The `image` object inside a generated-images entry. `imageBytes` is an
optional string; a `mimeType` the response may claim is present in the shape
but never read by the code. -/
structure GenImage where
  imageBytes : Option String
  mimeType : Option String
deriving Repr, DecidableEq

/-- One entry of `response.generatedImages`; the code reads `.image`
unconditionally. -/
structure GeneratedImagesEntry where
  image : GenImage
deriving Repr, DecidableEq

/-- Response shape of `ai.models.generateImages` (generate path). -/
structure GenerateResponse where
  generatedImages : Option (List GeneratedImagesEntry)
deriving Repr, DecidableEq

/-- A thrown JavaScript value: either an `Error` instance carrying a message,
or some non-`Error` value (JavaScript permits throwing anything). -/
inductive JsError where
  | err (msg : String)
  | nonErr
deriving Repr, DecidableEq

/-- The provider client as seen by the adapter: the two remote operations the
code calls, each returning its response shape or throwing. The edit operation
receives the prompt and the source image; the generate operation receives the
prompt (the remaining request fields — model name, modality, image count,
output format, aspect ratio — are constants in the code and do not vary). -/
structure Transport where
  generateContent : String → SourceImage → Except JsError EditResponse
  generateImages : String → Except JsError GenerateResponse

/-- JavaScript template-literal rendering of a string-or-undefined value:
`undefined` interpolates as the text "undefined". -/
def jsStr : Option String → String
  | none => "undefined"
  | some s => s

/-- JavaScript falsiness of a string-or-undefined value: `undefined` and the
empty string are falsy. -/
def jsFalsyStr : Option String → Bool
  | none => true
  | some s => s.isEmpty

/-- The returned data URL: `data:${mimeType};base64,${data}`. -/
def dataUrl (mimeType data : String) : String :=
  "data:" ++ mimeType ++ ";base64," ++ data

/-- `response.candidates?.[0]?.content?.parts?.find(p => p.inlineData)`:
optional chaining absorbs each missing link into `none`, and `find` scans the
parts list for the first part whose `inlineData` is present. -/
def findImagePart (r : EditResponse) : Option Part :=
  (((r.candidates.bind List.head?).bind Candidate.content).bind Content.parts).bind
    (List.find? (fun p => p.inlineData.isSome))

/-- The edit branch (`image` present): call `generateContent`, take the first
inline-image part and return its data URL, else throw
`Error("API did not return an edited image.")`. -/
def editPath (t : Transport) (prompt : String) (image : SourceImage) :
    Except JsError String := do
  let response ← t.generateContent prompt image
  match (findImagePart response).bind Part.inlineData with
  | some d => pure (dataUrl (jsStr d.mimeType) (jsStr d.data))
  | none => throw (JsError.err "API did not return an edited image.")

/-- The generate branch (no `image`): call `generateImages`; a missing or
empty `generatedImages` list throws `Error("API did not return any images.")`;
a falsy first payload throws `Error("Generated image data is empty.")`;
otherwise return the jpeg data URL on the first entry's bytes. -/
def generatePath (t : Transport) (prompt : String) : Except JsError String := do
  let response ← t.generateImages prompt
  match response.generatedImages with
  | none => throw (JsError.err "API did not return any images.")
  | some [] => throw (JsError.err "API did not return any images.")
  | some (e :: _) =>
    if jsFalsyStr e.image.imageBytes then
      throw (JsError.err "Generated image data is empty.")
    else
      pure (dataUrl "image/jpeg" (jsStr e.image.imageBytes))

/-- The body of the `try` block: branch purely on presence of the optional
image argument. -/
def tryBody (t : Transport) (prompt : String) (image : Option SourceImage) :
    Except JsError String :=
  match image with
  | some img => editPath t prompt img
  | none => generatePath t prompt

/-- The `catch` block: an `Error` instance is re-thrown with its message
wrapped by a fixed prompt, any other thrown value becomes the generic
unknown-error message. -/
def wrapError : JsError → String
  | JsError.err m => "Gemini API Error: " ++ m
  | JsError.nonErr => "An unknown error occurred while generating the content."

/-- `generateOrEditImage(prompt, image?)`: run the branch selected by the
presence of `image` and normalize any thrown value at the boundary catch. The
result is the data-URL string on success, or the message of the single
normalized error thrown to the caller. -/
def generateOrEditImage (t : Transport) (prompt : String)
    (image : Option SourceImage) : Except String String :=
  match tryBody t prompt image with
  | Except.ok s => Except.ok s
  | Except.error e => Except.error (wrapError e)

/-- Two successive calls with the same arguments against the same transport. -/
def callTwice (t : Transport) (prompt : String) (image : Option SourceImage) :
    Except String String × Except String String :=
  (generateOrEditImage t prompt image, generateOrEditImage t prompt image)

/-- A transport whose edit operation returns a response with no candidates and
whose generate operation returns a response with an empty image list. -/
def emptyTransport : Transport where
  generateContent := fun _ _ => Except.ok ⟨none⟩
  generateImages := fun _ => Except.ok ⟨some []⟩

/-- A sample source image. -/
def sampleImage : SourceImage := ⟨"AAAA", "image/png"⟩

/-- C1: branch selection is a pure function of the presence of the source
image: with an image the adapter performs the edit operation (its outcome is
the wrapped edit path, and is unchanged by any change to the generate
operation), and without one it performs the generate operation (the wrapped
generate path, unchanged by any change to the edit operation) — for every
prompt and every image content. -/
theorem C1_branch_by_presence (t t' : Transport) (prompt : String) :
    (∀ img : SourceImage,
      generateOrEditImage t prompt (some img) =
        (match editPath t prompt img with
         | Except.ok s => Except.ok s
         | Except.error e => Except.error (wrapError e))) ∧
    (generateOrEditImage t prompt none =
      (match generatePath t prompt with
       | Except.ok s => Except.ok s
       | Except.error e => Except.error (wrapError e))) ∧
    (t.generateContent = t'.generateContent →
      ∀ img : SourceImage, generateOrEditImage t prompt (some img) =
        generateOrEditImage t' prompt (some img)) ∧
    (t.generateImages = t'.generateImages →
      generateOrEditImage t prompt none = generateOrEditImage t' prompt none) := by
  refine ⟨fun img => rfl, rfl, fun h img => ?_, fun h => ?_⟩
  · simp only [generateOrEditImage, tryBody, editPath, h]
  · simp only [generateOrEditImage, tryBody, generatePath, h]

/-- Witness for C1 at a concrete transport, prompt and image. -/
theorem C1_branch_by_presence_witness :
    generateOrEditImage emptyTransport "a cat" (some sampleImage) =
      generateOrEditImage emptyTransport "a cat" (some sampleImage) :=
  (C1_branch_by_presence emptyTransport emptyTransport "a cat").2.2.1 rfl sampleImage

/-- C2: on the generate path, a missing or empty image list fails with the
no-image-returned reason, a present first entry whose payload is empty or
missing fails with the distinct empty-payload reason, and the two reasons are
different texts. -/
theorem C2_generate_failures (t : Transport) (prompt : String)
    (r : GenerateResponse) (h : t.generateImages prompt = Except.ok r) :
    ((r.generatedImages = none ∨ r.generatedImages = some []) →
      generateOrEditImage t prompt none =
        Except.error (wrapError (JsError.err "API did not return any images."))) ∧
    (∀ (e : GeneratedImagesEntry) (rest : List GeneratedImagesEntry),
      r.generatedImages = some (e :: rest) →
      jsFalsyStr e.image.imageBytes = true →
      generateOrEditImage t prompt none =
        Except.error (wrapError (JsError.err "Generated image data is empty."))) ∧
    "API did not return any images." ≠ "Generated image data is empty." := by
  refine ⟨fun hl => ?_, fun e rest hl hb => ?_, by decide⟩
  · rcases hl with hl | hl <;>
      simp only [generateOrEditImage, tryBody, generatePath, h, hl, bind, Except.bind]
  · simp only [generateOrEditImage, tryBody, generatePath, h, hl, hb,
      bind, Except.bind, if_true]

/-- Witness for C2: the transport returning an empty image list fails with the
wrapped no-image-returned reason. -/
theorem C2_generate_failures_witness :
    generateOrEditImage emptyTransport "a cat" none =
      Except.error (wrapError (JsError.err "API did not return any images.")) :=
  (C2_generate_failures emptyTransport "a cat" ⟨some []⟩ rfl).1 (Or.inr rfl)

/-- C7: the adapter is deterministic and stateless: two calls with identical
prompt and image arguments against the same transport yield identical
outcomes; no adapter-held state can distinguish the second call. -/
theorem C7_deterministic (t : Transport) (prompt : String)
    (image : Option SourceImage) :
    (callTwice t prompt image).1 = (callTwice t prompt image).2 := rfl

/-- Scanning past an initial segment with no match: `find?` on an append whose
left part has no satisfying element is `find?` on the right part. -/
theorem find?_append_of_forall_not {α : Type} (p : α → Bool) :
    ∀ (l₁ l₂ : List α), (∀ x ∈ l₁, ¬ p x) → List.find? p (l₁ ++ l₂) = List.find? p l₂ := by
  intro l₁ l₂ h
  induction l₁ with
  | nil => rfl
  | cons a l ih =>
    have ha : p a = false := by
      have := h a (List.mem_cons_self a l)
      exact Bool.eq_false_iff.mpr this
    simp only [List.cons_append, List.find?, ha]
    exact ih (fun x hx => h x (List.mem_cons_of_mem a hx))

/-- C3: on the edit path, a response whose parts list contains no part carrying
inline image data fails with the no-edited-image reason (wrapped at the
boundary). -/
theorem C3_no_inline_part (t : Transport) (prompt : String) (img : SourceImage)
    (r : EditResponse) (c : Candidate) (cs : List Candidate) (ct : Content)
    (ps : List Part)
    (h : t.generateContent prompt img = Except.ok r)
    (hc : r.candidates = some (c :: cs)) (hct : c.content = some ct)
    (hps : ct.parts = some ps)
    (hnone : ∀ p ∈ ps, p.inlineData = none) :
    generateOrEditImage t prompt (some img) =
      Except.error (wrapError (JsError.err "API did not return an edited image.")) := by
  have hfind : List.find? (fun p => p.inlineData.isSome) ps = none := by
    rw [List.find?_eq_none]
    intro x hx
    simp [hnone x hx]
  simp only [generateOrEditImage, tryBody, editPath, h, findImagePart, hc, hct, hps,
    List.head?, Option.bind_some, Option.some_bind, hfind, Option.none_bind,
    bind, Except.bind]

/-- Witness for C3: a single-candidate response whose one part has no inline
data fails with the wrapped no-edited-image reason. -/
theorem C3_no_inline_part_witness :
    generateOrEditImage
      ⟨fun _ _ => Except.ok ⟨some [⟨some ⟨some [⟨none⟩]⟩⟩]⟩,
       fun _ => Except.ok ⟨none⟩⟩ "add a hat" (some sampleImage) =
      Except.error (wrapError (JsError.err "API did not return an edited image.")) :=
  C3_no_inline_part _ "add a hat" sampleImage ⟨some [⟨some ⟨some [⟨none⟩]⟩⟩]⟩
    ⟨some ⟨some [⟨none⟩]⟩⟩ [] ⟨some [⟨none⟩]⟩ [⟨none⟩] rfl rfl rfl rfl
    (by intro p hp; simp at hp; simp [hp])

/-- C4: on the edit path, the FIRST part carrying inline data determines the
result: if the parts list is an initial segment with no inline data followed
by a part with inline payload P and media type M, the adapter returns the
data URL built from M and P. -/
theorem C4_first_inline_part (t : Transport) (prompt : String) (img : SourceImage)
    (r : EditResponse) (c : Candidate) (cs : List Candidate) (ct : Content)
    (ps₁ ps₂ : List Part) (P M : String)
    (h : t.generateContent prompt img = Except.ok r)
    (hc : r.candidates = some (c :: cs)) (hct : c.content = some ct)
    (hps : ct.parts = some (ps₁ ++ Part.mk (some (InlineData.mk (some P) (some M))) :: ps₂))
    (hnone : ∀ p ∈ ps₁, p.inlineData = none) :
    generateOrEditImage t prompt (some img) = Except.ok (dataUrl M P) := by
  have hfind : List.find? (fun p => p.inlineData.isSome)
      (ps₁ ++ Part.mk (some (InlineData.mk (some P) (some M))) :: ps₂) =
      some (Part.mk (some (InlineData.mk (some P) (some M)))) := by
    rw [find?_append_of_forall_not _ _ _ (fun x hx => by simp [hnone x hx])]
    simp [List.find?]
  simp only [generateOrEditImage, tryBody, editPath, h, findImagePart, hc, hct, hps,
    List.head?, Option.bind_some, Option.some_bind, hfind, bind, Except.bind, jsStr,
    pure, Except.pure]

/-- Witness for C4: a parts list with one inline-free part followed by an
inline part returns that part's data URL. -/
theorem C4_first_inline_part_witness :
    generateOrEditImage
      ⟨fun _ _ => Except.ok
          ⟨some [⟨some ⟨some [⟨none⟩, ⟨some ⟨some "QUJD", some "image/png"⟩⟩]⟩⟩]⟩,
       fun _ => Except.ok ⟨none⟩⟩ "add a hat" (some sampleImage) =
      Except.ok (dataUrl "image/png" "QUJD") :=
  C4_first_inline_part _ "add a hat" sampleImage
    ⟨some [⟨some ⟨some [⟨none⟩, ⟨some ⟨some "QUJD", some "image/png"⟩⟩]⟩⟩]⟩
    ⟨some ⟨some [⟨none⟩, ⟨some ⟨some "QUJD", some "image/png"⟩⟩]⟩⟩ []
    ⟨some [⟨none⟩, ⟨some ⟨some "QUJD", some "image/png"⟩⟩]⟩
    [⟨none⟩] [] "QUJD" "image/png" rfl rfl rfl rfl
    (by intro p hp; simp at hp; simp [hp])

/-- C5: on the generate path, a first image with non-empty payload P yields
the jpeg data URL on P, regardless of any media type mt the response itself
claims for that image. -/
theorem C5_generate_success (t : Transport) (prompt : String)
    (r : GenerateResponse) (e : GeneratedImagesEntry)
    (rest : List GeneratedImagesEntry) (P : String) (mt : Option String)
    (h : t.generateImages prompt = Except.ok r)
    (hl : r.generatedImages = some (e :: rest))
    (he : e.image = GenImage.mk (some P) mt) (hP : P ≠ "") :
    generateOrEditImage t prompt none = Except.ok (dataUrl "image/jpeg" P) := by
  have hfalsy : jsFalsyStr (some P) = false := by
    simp only [jsFalsyStr]
    rw [Bool.eq_false_iff]
    intro hemp
    exact hP ((String.isEmpty_iff P).mp hemp)
  simp only [generateOrEditImage, tryBody, generatePath, h, hl, he, hfalsy,
    bind, Except.bind, Bool.false_eq_true, if_false, jsStr, pure, Except.pure]

/-- Witness for C5: a generate response claiming media type image/png for its
one image still yields the jpeg data URL. -/
theorem C5_generate_success_witness :
    generateOrEditImage
      ⟨fun _ _ => Except.ok ⟨none⟩,
       fun _ => Except.ok ⟨some [⟨⟨some "QUJD", some "image/png"⟩⟩]⟩⟩ "a cat" none =
      Except.ok (dataUrl "image/jpeg" "QUJD") :=
  C5_generate_success _ "a cat" ⟨some [⟨⟨some "QUJD", some "image/png"⟩⟩]⟩
    ⟨⟨some "QUJD", some "image/png"⟩⟩ [] "QUJD" (some "image/png") rfl rfl rfl
    (by decide)

/-- A transport whose two operations both throw: the edit operation throws an
`Error` with message "boom", the generate operation throws a non-`Error`
value. -/
def throwingTransport : Transport where
  generateContent := fun _ _ => Except.error (JsError.err "boom")
  generateImages := fun _ => Except.error JsError.nonErr

/-- C6: every thrown value is caught exactly once at the boundary: an `Error`
thrown by either remote operation escapes only with its message wrapped by
the fixed marker text, a non-`Error` thrown value escapes as the generic
unknown-error message, and every outcome of the adapter is a success or one
of these two normalized forms — a raw transport exception never escapes. -/
theorem C6_boundary_catch (t : Transport) (prompt : String) :
    (∀ (img : SourceImage) (m : String),
      t.generateContent prompt img = Except.error (JsError.err m) →
      generateOrEditImage t prompt (some img) =
        Except.error ("Gemini API Error: " ++ m)) ∧
    (∀ m : String, t.generateImages prompt = Except.error (JsError.err m) →
      generateOrEditImage t prompt none =
        Except.error ("Gemini API Error: " ++ m)) ∧
    (∀ img : SourceImage,
      t.generateContent prompt img = Except.error JsError.nonErr →
      generateOrEditImage t prompt (some img) =
        Except.error "An unknown error occurred while generating the content.") ∧
    (t.generateImages prompt = Except.error JsError.nonErr →
      generateOrEditImage t prompt none =
        Except.error "An unknown error occurred while generating the content.") ∧
    (∀ image : Option SourceImage,
      (∃ s, generateOrEditImage t prompt image = Except.ok s) ∨
      (∃ m, generateOrEditImage t prompt image =
        Except.error ("Gemini API Error: " ++ m)) ∨
      generateOrEditImage t prompt image =
        Except.error "An unknown error occurred while generating the content.") := by
  refine ⟨fun img m h => ?_, fun m h => ?_, fun img h => ?_, fun h => ?_, fun image => ?_⟩
  · simp only [generateOrEditImage, tryBody, editPath, h, bind, Except.bind, wrapError]
  · simp only [generateOrEditImage, tryBody, generatePath, h, bind, Except.bind, wrapError]
  · simp only [generateOrEditImage, tryBody, editPath, h, bind, Except.bind, wrapError]
  · simp only [generateOrEditImage, tryBody, generatePath, h, bind, Except.bind, wrapError]
  · cases htb : tryBody t prompt image with
    | ok s =>
      exact Or.inl ⟨s, by simp only [generateOrEditImage, htb]⟩
    | error je =>
      cases je with
      | err m =>
        exact Or.inr (Or.inl ⟨m, by simp only [generateOrEditImage, htb, wrapError]⟩)
      | nonErr =>
        exact Or.inr (Or.inr (by simp only [generateOrEditImage, htb, wrapError]))

/-- Witness for C6: the throwing transport's generate-path non-`Error` value
escapes as the generic unknown-error message. -/
theorem C6_boundary_catch_witness :
    generateOrEditImage throwingTransport "a cat" none =
      Except.error "An unknown error occurred while generating the content." :=
  (C6_boundary_catch throwingTransport "a cat").2.2.2.1 rfl

/-- C8: the edit path performs no empty-payload check: whenever some part of
the response carries an `inlineData` field the adapter succeeds, and when the
first part's inline data has an empty-string payload the result is a
successful data URL with empty bytes — not an error. -/
theorem C8_edit_no_empty_check (t : Transport) (prompt : String)
    (img : SourceImage) (r : EditResponse) (c : Candidate) (cs : List Candidate)
    (ct : Content) (ps : List Part)
    (h : t.generateContent prompt img = Except.ok r)
    (hc : r.candidates = some (c :: cs)) (hct : c.content = some ct)
    (hps : ct.parts = some ps) :
    ((∃ p ∈ ps, p.inlineData.isSome = true) →
      ∃ s, generateOrEditImage t prompt (some img) = Except.ok s) ∧
    (∀ (mt : Option String) (ps₂ : List Part),
      ps = Part.mk (some (InlineData.mk (some "") mt)) :: ps₂ →
      generateOrEditImage t prompt (some img) =
        Except.ok (dataUrl (jsStr mt) "")) := by
  constructor
  · intro hsome
    cases hf : List.find? (fun p => p.inlineData.isSome) ps with
    | none =>
      exfalso
      obtain ⟨p, hmem, hp⟩ := hsome
      have := List.find?_eq_none.mp hf p hmem
      exact this hp
    | some part =>
      have hp := List.find?_some hf
      obtain ⟨d, hd⟩ := Option.isSome_iff_exists.mp hp
      refine ⟨dataUrl (jsStr d.mimeType) (jsStr d.data), ?_⟩
      simp only [generateOrEditImage, tryBody, editPath, h, findImagePart, hc, hct,
        hps, List.head?, Option.some_bind, Option.bind_some, hf, hd,
        bind, Except.bind, pure, Except.pure]
  · intro mt ps₂ hps'
    subst hps'
    simp only [generateOrEditImage, tryBody, editPath, h, findImagePart, hc, hct,
      hps, List.head?, Option.some_bind, Option.bind_some, List.find?,
      Option.isSome_some, bind, Except.bind, pure, Except.pure, jsStr]

/-- Witness for C8: an edit response whose single part carries inline data
with an empty payload succeeds with an empty-byte data URL. -/
theorem C8_edit_no_empty_check_witness :
    generateOrEditImage
      ⟨fun _ _ => Except.ok ⟨some [⟨some ⟨some [⟨some ⟨some "", some "image/png"⟩⟩]⟩⟩]⟩,
       fun _ => Except.ok ⟨none⟩⟩ "add a hat" (some sampleImage) =
      Except.ok (dataUrl "image/png" "") :=
  (C8_edit_no_empty_check _ "add a hat" sampleImage
    ⟨some [⟨some ⟨some [⟨some ⟨some "", some "image/png"⟩⟩]⟩⟩]⟩
    ⟨some ⟨some [⟨some ⟨some "", some "image/png"⟩⟩]⟩⟩ []
    ⟨some [⟨some ⟨some "", some "image/png"⟩⟩]⟩
    [⟨some ⟨some "", some "image/png"⟩⟩] rfl rfl rfl rfl).2
    (some "image/png") [] rfl

/-- C9: on the edit path every degenerate response shape collapses into the
same failure: missing candidates, an empty candidates list, a first candidate
without content, or content without a parts list all yield the wrapped
no-edited-image error — never a crash or a different error. -/
theorem C9_degenerate_shapes (t : Transport) (prompt : String)
    (img : SourceImage) (r : EditResponse)
    (h : t.generateContent prompt img = Except.ok r)
    (hdeg : r.candidates = none ∨ r.candidates = some [] ∨
      (∃ c cs, r.candidates = some (c :: cs) ∧ c.content = none) ∨
      (∃ c cs ct, r.candidates = some (c :: cs) ∧ c.content = some ct ∧
        ct.parts = none)) :
    generateOrEditImage t prompt (some img) =
      Except.error (wrapError (JsError.err "API did not return an edited image.")) := by
  rcases hdeg with hc | hc | ⟨c, cs, hc, hct⟩ | ⟨c, cs, ct, hc, hct, hps⟩
  · simp only [generateOrEditImage, tryBody, editPath, h, findImagePart, hc,
      List.head?, Option.none_bind, bind, Except.bind]
  · simp only [generateOrEditImage, tryBody, editPath, h, findImagePart, hc,
      List.head?, Option.some_bind, Option.none_bind, bind, Except.bind]
  · simp only [generateOrEditImage, tryBody, editPath, h, findImagePart, hc, hct,
      List.head?, Option.some_bind, Option.bind_some, Option.none_bind,
      bind, Except.bind]
  · simp only [generateOrEditImage, tryBody, editPath, h, findImagePart, hc, hct,
      hps, List.head?, Option.some_bind, Option.bind_some, Option.none_bind,
      bind, Except.bind]

/-- Witness for C9: a response with no candidates field fails with the
wrapped no-edited-image error. -/
theorem C9_degenerate_shapes_witness :
    generateOrEditImage
      ⟨fun _ _ => Except.ok ⟨none⟩, fun _ => Except.ok ⟨none⟩⟩
      "add a hat" (some sampleImage) =
      Except.error (wrapError (JsError.err "API did not return an edited image.")) :=
  C9_degenerate_shapes _ "add a hat" sampleImage ⟨none⟩ rfl (Or.inl rfl)

/-- A string starting with the wrapper marker differs from any string whose
first eighteen characters differ from the marker. -/
theorem wrapped_msg_ne (m bare : String)
    (hb : bare.data.take 18 ≠ "Gemini API Error: ".data) :
    "Gemini API Error: " ++ m ≠ bare := by
  intro h
  apply hb
  have hd : ("Gemini API Error: ").data ++ m.data = bare.data := by
    rw [← String.data_append, h]
  have ht := congrArg (List.take 18) hd
  rw [← ht]
  have hlen : ("Gemini API Error: ".data).length = 18 := by decide
  rw [← hlen]
  exact List.take_left _ _

/-- C10: every error escaping the adapter is in normalized form: it carries
the generic wrapper marker around some message, or is the unknown-error
message; in particular none of the three canonical shape-failure reasons ever
escapes unwrapped. -/
theorem C10_always_wrapped (t : Transport) (prompt : String)
    (image : Option SourceImage) (e : String)
    (h : generateOrEditImage t prompt image = Except.error e) :
    ((∃ m, e = "Gemini API Error: " ++ m) ∨
      e = "An unknown error occurred while generating the content.") ∧
    e ≠ "API did not return an edited image." ∧
    e ≠ "API did not return any images." ∧
    e ≠ "Generated image data is empty." := by
  have hw : ∃ je, e = wrapError je := by
    unfold generateOrEditImage at h
    cases htb : tryBody t prompt image with
    | ok s =>
      rw [htb] at h
      exact absurd h (by simp)
    | error je =>
      rw [htb] at h
      injection h with h2
      exact ⟨je, h2.symm⟩
  obtain ⟨je, rfl⟩ := hw
  cases je with
  | err m =>
    refine ⟨Or.inl ⟨m, rfl⟩, ?_, ?_, ?_⟩ <;>
      exact wrapped_msg_ne m _ (by decide)
  | nonErr =>
    exact ⟨Or.inr rfl, by decide, by decide, by decide⟩

/-- Witness for C10: the empty-list generate failure escapes in wrapped form
and differs from every bare canonical reason. -/
theorem C10_always_wrapped_witness :
    ((∃ m, "Gemini API Error: " ++ "API did not return any images." =
        "Gemini API Error: " ++ m) ∨
      "Gemini API Error: " ++ "API did not return any images." =
        "An unknown error occurred while generating the content.") ∧
    "Gemini API Error: " ++ "API did not return any images." ≠
      "API did not return an edited image." ∧
    "Gemini API Error: " ++ "API did not return any images." ≠
      "API did not return any images." ∧
    "Gemini API Error: " ++ "API did not return any images." ≠
      "Generated image data is empty." :=
  C10_always_wrapped emptyTransport "a cat" none
    ("Gemini API Error: " ++ "API did not return any images.") rfl

end GeminiService
